import Mathlib

/-!
Verification of the document-processing pipeline of the `modeloshaciendaweb`
repository against its natural-language specification.

The pipeline logic lives client-side in the upload pages (the large unnamed
React page, `src/unnamed/part_007`).  The definitions below are a shallow
embedding of that code: component state becomes an explicit record, each
handler becomes a pure function from its inputs (including the outcome of
every network request it performs) to the next state, and the sequential
upload loop additionally emits a trace of events so that ordering properties
can be stated.  Backend behaviour that the repository only calls over HTTP
(the `/api/upload` record-creation and duplicate check) is modelled from the
specification and marked as such in its doc comment.
-/

set_option maxRecDepth 4000

/-- Declared document type of a submission (`DocType` in the source:
"factura" or "venta"). -/
inductive DocType
  | factura
  | venta
deriving DecidableEq

/-- Step of the step-by-step invoice flow (`ProcessingStep` in the source). -/
inductive ProcessingStep
  | idle
  | confirm_ai
  | processing_ai
  | confirm_drive
  | uploading_drive
  | completed
  | error
deriving DecidableEq

/-- The eleven status literals of the frontend union type `UploadStatus`
(part_007 lines 10-21). -/
def frontendUploadStatusValues : List String :=
  ["UPLOADED", "QUEUED", "PROCESSING", "PROCESSING_AI", "AI_COMPLETED",
   "UPLOADING_DRIVE", "PROCESSED", "COMPLETED", "FAILED", "FAILED_AI",
   "FAILED_DRIVE"]

/-- The eight status values documented in the SQL migration comment
(part_003 lines 97-105) as the values the new pipeline writes. -/
def sqlDocumentedStatusValues : List String :=
  ["UPLOADED", "PROCESSING_AI", "AI_COMPLETED", "UPLOADING_DRIVE",
   "COMPLETED", "FAILED_AI", "FAILED_DRIVE", "DUPLICATED"]

/-- The exact eight-value enum asserted by the specification
("status values must be exactly the named enum").  Spec-side definition,
kept separate so it can be compared with the status sets of the source. -/
def claimedStatusEnum : List String :=
  ["UPLOADED", "PROCESSING_AI", "AI_COMPLETED", "UPLOADING_DRIVE",
   "COMPLETED", "FAILED_AI", "FAILED_DRIVE", "DUPLICATED"]

/-- Metadata of a file picked by the user.  `bytes` stands for the raw file
content (a JS `File` object carries name, size, MIME type and content). -/
structure FileMeta where
  name : String
  size : Nat
  mimeType : String
  bytes : List Nat
deriving DecidableEq

/-- Summary of the already-existing upload inside a duplicate payload
(`DuplicateInfo.existing` in the source). -/
structure ExistingUploadSummary where
  id : String
  filename : String
  uploaded_at : String
  status : String
deriving DecidableEq

/-- Invoice summary inside a duplicate payload (`DuplicateInfo.factura`). -/
structure FacturaSummary where
  id_factura : String
  importe_total_euro : Option Int
  fecha : String
deriving DecidableEq

/-- Duplicate payload returned by the backend with HTTP 409
(`DuplicateInfo` in the source). -/
structure DuplicateInfo where
  existing : ExistingUploadSummary
  factura : Option FacturaSummary
  temp_file : String
deriving DecidableEq

/-- Structured fields extracted by the AI, modelled as a key/value record
(`AIData` in the source is an open JSON object). -/
def AIData : Type := List (String × String)

instance : DecidableEq AIData := by
  unfold AIData
  infer_instance

/-- The mutable component state of the upload page, restricted to the fields
the processing pipeline reads or writes. -/
structure PageState where
  files : List FileMeta
  uploading : Bool
  showConfirm : Bool
  showSuccess : Bool
  duplicateInfo : Option DuplicateInfo
  pendingDuplicateFile : Option FileMeta
  showDuplicateModal : Bool
  duplicateProcessing : Bool
  pendingFiles : List (FileMeta × String)
  currentFileIndex : Nat
  currentUploadId : Option String
  currentFileName : Option String
  processingStep : ProcessingStep
  processingError : Option String
  aiResult : Option AIData
  driveUrl : Option String
  historicoReloads : Nat
deriving DecidableEq

/-- A page state with everything empty / idle, used to instantiate witnesses. -/
def initialPageState : PageState :=
  { files := [], uploading := false, showConfirm := false, showSuccess := false,
    duplicateInfo := none, pendingDuplicateFile := none, showDuplicateModal := false,
    duplicateProcessing := false, pendingFiles := [], currentFileIndex := 0,
    currentUploadId := none, currentFileName := none, processingStep := .idle,
    processingError := none, aiResult := none, driveUrl := none, historicoReloads := 0 }

/-! ## File-type gate (part_007 lines 277-299) -/

/-- `ALLOWED_TYPES` from the source: the two accepted MIME types. -/
def ALLOWED_TYPES : List String :=
  ["application/pdf",
   "application/vnd.openxmlformats-officedocument.spreadsheetml.sheet"]

/-- JavaScript `toLowerCase()` on a filename, modelled on the character list
of the string (per-character ASCII lowering, which is what the filenames in
question use). -/
def toLowerChars (s : String) : List Char :=
  s.data.map Char.toLower

/-- `isAllowed` from the source: MIME type in `ALLOWED_TYPES`, or lowercased
filename ending in ".pdf" or ".xlsx". -/
def isAllowed (f : FileMeta) : Bool :=
  ALLOWED_TYPES.contains f.mimeType
    || List.isSuffixOf ".pdf".data (toLowerChars f.name)
    || List.isSuffixOf ".xlsx".data (toLowerChars f.name)

/-- One step of the dedup loop of `addFiles`: push `f` unless a file with the
same name and size is already present. -/
def dedupStep (dedup : List FileMeta) (f : FileMeta) : List FileMeta :=
  if dedup.any (fun d => d.name = f.name && d.size = f.size) then dedup
  else dedup ++ [f]

/-- `addFiles` from the source: filter the incoming files through `isAllowed`
and append them to the current list, deduplicating by name+size. -/
def addFiles (prev incoming : List FileMeta) : List FileMeta :=
  (incoming.filter isAllowed).foldl dedupStep prev

/-- The type gate exactly as the claim words it: MIME type is
`application/pdf` or the xlsx OOXML MIME type, or the filename ends
case-insensitively in ".pdf" or ".xlsx".  Spec-side definition for
comparison with `isAllowed`. -/
def claimTypeGate (f : FileMeta) : Bool :=
  f.mimeType = "application/pdf"
    || f.mimeType = "application/vnd.openxmlformats-officedocument.spreadsheetml.sheet"
    || List.isSuffixOf (toLowerChars ".pdf") (toLowerChars f.name)
    || List.isSuffixOf (toLowerChars ".xlsx") (toLowerChars f.name)

/-! ## Retry dispatch (part_007 lines 624-678) and the history continue
button (part_007 lines 2911-2943) -/

/-- What one call of `retryProcessing` does after reading the upload's
current status. -/
inductive RetryAction
  | invokeStartAI
  | invokeStartArchive
  | genericRetryRequest
  | noOp
deriving DecidableEq

/-- The status dispatch of `retryProcessing` (part_007 lines 643-651):
FAILED_AI / UPLOADED / QUEUED re-run the AI stage, FAILED_DRIVE /
AI_COMPLETED re-run the Drive stage, anything else POSTs the generic
backend retry endpoint. -/
def retryProcessing (currentStatus : String) : RetryAction :=
  if currentStatus = "FAILED_AI" ∨ currentStatus = "UPLOADED" ∨ currentStatus = "QUEUED" then
    .invokeStartAI
  else if currentStatus = "FAILED_DRIVE" ∨ currentStatus = "AI_COMPLETED" then
    .invokeStartArchive
  else
    .genericRetryRequest

/-- The retry dispatch exactly as the claim words it: FAILED_AI or UPLOADED
go to `start_ai`, FAILED_DRIVE or AI_COMPLETED go to `start_archive`, every
other status is a no-op.  Spec-side definition for comparison with
`retryProcessing`. -/
def claimRetryDispatch (currentStatus : String) : RetryAction :=
  if currentStatus = "FAILED_AI" ∨ currentStatus = "UPLOADED" then
    .invokeStartAI
  else if currentStatus = "FAILED_DRIVE" ∨ currentStatus = "AI_COMPLETED" then
    .invokeStartArchive
  else
    .noOp

/-- The retry dispatch amended to what the source does: QUEUED is grouped
with the never-started statuses, and the fall-through delegates to the
generic backend retry endpoint instead of being a local no-op. -/
def amendedRetryDispatch (currentStatus : String) : RetryAction :=
  if ["FAILED_AI", "UPLOADED", "QUEUED"].contains currentStatus then
    .invokeStartAI
  else if ["FAILED_DRIVE", "AI_COMPLETED"].contains currentStatus then
    .invokeStartArchive
  else
    .genericRetryRequest

/-- Statuses for which the details modal shows the "Continuar proceso"
button (part_007 line 2911). -/
def continueButtonVisible (status : String) : Bool :=
  ["UPLOADED", "QUEUED", "AI_COMPLETED", "FAILED_AI", "FAILED_DRIVE"].contains status

/-- Step the "Continuar proceso" button resumes at (part_007 lines
2928-2933): UPLOADED / QUEUED / FAILED_AI resume before the AI stage,
AI_COMPLETED / FAILED_DRIVE resume before the Drive stage. -/
def continueProcessStep (status : String) : Option ProcessingStep :=
  if status = "UPLOADED" ∨ status = "QUEUED" ∨ status = "FAILED_AI" then
    some .confirm_ai
  else if status = "AI_COMPLETED" ∨ status = "FAILED_DRIVE" then
    some .confirm_drive
  else
    none

/-! ## The sequential upload loop `confirmUpload` (part_007 lines 375-459) -/

/-- Outcome of one `POST /api/upload/` request as the page code
distinguishes them: HTTP 409 with `error = "duplicate_hash"`, any other
non-ok response, or an ok response whose JSON may or may not carry an
`upload_id`. -/
inductive UploadOutcome
  | dupHash (info : DuplicateInfo)
  | httpError (msg : String)
  | ok (uploadId : Option String)
deriving DecidableEq

/-- Events of one run of the upload loop, indexed by file position. -/
inductive BatchEvent
  | uploadStarted (i : Nat)
  | uploadSettled (i : Nat)
  | pausedAtDuplicate (i : Nat)
deriving DecidableEq

/-- End of the loop (part_007 lines 436-452): invoices with at least one
uploaded file enter the step-by-step flow positioned on the first one;
otherwise the success modal is shown and the file list cleared. -/
def finishConfirmUpload (docType : DocType) (acc : List (FileMeta × String))
    (st : PageState) : PageState :=
  match docType, acc with
  | .factura, (f, uid) :: _ =>
    { st with pendingFiles := acc, currentFileIndex := 0,
              currentUploadId := some uid, currentFileName := some f.name,
              processingStep := .confirm_ai, showConfirm := false,
              uploading := false }
  | _, _ =>
    { st with showConfirm := false, files := [], showSuccess := true,
              uploading := false }

/-- Body of the sequential loop of `confirmUpload`.  `i` is the position of
the head of `rest` in the originally submitted list; `acc` accumulates the
`(file, upload_id)` pairs of successfully uploaded invoices.  Besides the
final page state it returns the trace of loop events, in order. -/
def confirmUploadGo (docType : DocType) :
    List (FileMeta × UploadOutcome) → Nat → List (FileMeta × String) →
    PageState → PageState × List BatchEvent
  | [], _, acc, st => (finishConfirmUpload docType acc st, [])
  | (f, o) :: rest, i, acc, st =>
    match o with
    | .dupHash info =>
      ({ st with duplicateInfo := some info, pendingDuplicateFile := some f,
                 showDuplicateModal := true, showConfirm := false,
                 uploading := false, files := rest.map Prod.fst },
       [.uploadStarted i, .pausedAtDuplicate i])
    | .httpError _ =>
      let r := confirmUploadGo docType rest (i + 1) acc st
      (r.1, .uploadStarted i :: .uploadSettled i :: r.2)
    | .ok uploadId? =>
      let acc' :=
        match docType, uploadId? with
        | .factura, some uid => acc ++ [(f, uid)]
        | _, _ => acc
      let st' := { st with historicoReloads := st.historicoReloads + 1 }
      let r := confirmUploadGo docType rest (i + 1) acc' st'
      (r.1, .uploadStarted i :: .uploadSettled i :: r.2)

/-- `confirmUpload` from the source, as a function of the submitted files
paired with the backend outcome of each one's upload request. -/
def confirmUpload (docType : DocType) (items : List (FileMeta × UploadOutcome))
    (st : PageState) : PageState × List BatchEvent :=
  confirmUploadGo docType items 0 [] { st with uploading := true }

/-! ## Stage functions `startAIProcessing` (part_007 lines 562-590) and
`startDriveUpload` (part_007 lines 593-621) -/

/-- JavaScript `a || b` on an optional string: the default is used when the
value is absent or empty (the empty string is falsy). -/
def jsOr (o : Option String) (d : String) : String :=
  match o with
  | none => d
  | some s => if s = "" then d else s

/-- Body of a `start-ai` response: `{ success, ai_data, error }`. -/
structure AIBody where
  success : Bool
  ai_data : Option AIData
  error : Option String
deriving DecidableEq

/-- Body of a `start-drive` response: `{ success, drive_url, error }`. -/
structure DriveBody where
  success : Bool
  drive_url : Option String
  error : Option String
deriving DecidableEq

/-- How one `fetch` + `response.json()` of a stage request can end: a parsed
body, a network-layer exception from `fetch`, or a malformed-JSON exception
from `response.json()`.  The two exception forms carry the thrown message. -/
inductive FetchOutcome (β : Type)
  | ok (body : β)
  | netException (msg : String)
  | malformedJson (msg : String)
deriving DecidableEq

/-- `startAIProcessing` from the source: enter `processing_ai`, clear the
error, then either record the AI data and move to `confirm_drive`, or record
a non-empty error message and move to `error`.  Both exception forms land in
the same catch block. -/
def startAIProcessing (r : FetchOutcome AIBody) (st : PageState) : PageState :=
  let st0 := { st with processingStep := .processing_ai, processingError := none }
  match r with
  | .ok body =>
    if body.success then
      { st0 with aiResult := body.ai_data, processingStep := .confirm_drive,
                 historicoReloads := st0.historicoReloads + 1 }
    else
      { st0 with processingError := some (jsOr body.error "Error en el procesamiento con IA"),
                 processingStep := .error,
                 historicoReloads := st0.historicoReloads + 1 }
  | .netException m =>
    { st0 with processingError := some (jsOr (some m) "Error desconocido"),
               processingStep := .error }
  | .malformedJson m =>
    { st0 with processingError := some (jsOr (some m) "Error desconocido"),
               processingStep := .error }

/-- `startDriveUpload` from the source, same shape as `startAIProcessing`
with the Drive response body. -/
def startDriveUpload (r : FetchOutcome DriveBody) (st : PageState) : PageState :=
  let st0 := { st with processingStep := .uploading_drive, processingError := none }
  match r with
  | .ok body =>
    if body.success then
      { st0 with driveUrl := body.drive_url, processingStep := .completed,
                 historicoReloads := st0.historicoReloads + 1 }
    else
      { st0 with processingError := some (jsOr body.error "Error subiendo a Drive"),
                 processingStep := .error,
                 historicoReloads := st0.historicoReloads + 1 }
  | .netException m =>
    { st0 with processingError := some (jsOr (some m) "Error desconocido"),
               processingStep := .error }
  | .malformedJson m =>
    { st0 with processingError := some (jsOr (some m) "Error desconocido"),
               processingStep := .error }

/-- A `start-ai` interaction that did not succeed: failure body, network
exception, or malformed JSON. -/
def aiFailure (r : FetchOutcome AIBody) : Bool :=
  match r with
  | .ok body => !body.success
  | .netException _ => true
  | .malformedJson _ => true

/-- A `start-drive` interaction that did not succeed. -/
def driveFailure (r : FetchOutcome DriveBody) : Bool :=
  match r with
  | .ok body => !body.success
  | .netException _ => true
  | .malformedJson _ => true

/-! ## `processNextFile` (part_007 lines 681-697) and
`handleDuplicateCancel` (part_007 lines 521-555) -/

/-- `resetProcessingState` from the source. -/
def resetProcessingState (st : PageState) : PageState :=
  { st with processingStep := .idle, currentUploadId := none,
            currentFileName := none, aiResult := none, driveUrl := none,
            processingError := none, pendingFiles := [], currentFileIndex := 0 }

/-- `processNextFile` from the source: advance to the next pending invoice
(back at `confirm_ai`), or finish the flow.  Clicking "Omitir Drive" calls
exactly this, so skipping archival performs no stage request at all. -/
def processNextFile (st : PageState) : PageState :=
  let nextIndex := st.currentFileIndex + 1
  match st.pendingFiles[nextIndex]? with
  | some (f, uid) =>
    { st with currentFileIndex := nextIndex, currentUploadId := some uid,
              currentFileName := some f.name, aiResult := none,
              driveUrl := none, processingError := none,
              processingStep := .confirm_ai }
  | none =>
    { resetProcessingState st with files := [], showSuccess := true }

/-- Outcome of the `DELETE /api/upload/temp` request. -/
inductive DeleteOutcome
  | deleted
  | deleteFailed (msg : String)
deriving DecidableEq

/-- `handleDuplicateCancel` from the source.  With no staged temp file or no
token the modal state is cleared and nothing else happens; otherwise the
temp-file deletion is attempted and the `finally` block clears the duplicate
state regardless of the deletion outcome `r`, re-opening the confirm dialog
when files remain. -/
def handleDuplicateCancel (hasToken : Bool) (r : DeleteOutcome)
    (st : PageState) : PageState :=
  let noTemp :=
    match st.duplicateInfo with
    | none => true
    | some d => d.temp_file = ""
  if noTemp || !hasToken then
    { st with showDuplicateModal := false, duplicateInfo := none,
              pendingDuplicateFile := none }
  else
    match r with
    | .deleted =>
      { st with duplicateProcessing := false, showDuplicateModal := false,
                duplicateInfo := none, pendingDuplicateFile := none,
                showConfirm := if st.files.isEmpty then st.showConfirm else true }
    | .deleteFailed _ =>
      { st with duplicateProcessing := false, showDuplicateModal := false,
                duplicateInfo := none, pendingDuplicateFile := none,
                showConfirm := if st.files.isEmpty then st.showConfirm else true }

/-! ## The upload submission endpoint, modelled from the spec

The repository is the client side of the pipeline: `POST /api/upload/`
(record creation, fingerprinting and the duplicate check) is served by a
backend that is not part of `src/`.  The definitions below model that
endpoint from the specification sections 3, 4.1, 4.2 and 6. -/

/-- Modelled from the spec: one persisted Upload record (spec section 3).
The repository does not contain the backend table code; the fields here are
the ones the spec names and the claims need. -/
structure Upload where
  id : Nat
  owner : String
  docType : DocType
  originalFilename : String
  sizeBytes : Nat
  mimeType : String
  contentFingerprint : List Nat
  status : String
  forced : Bool
deriving DecidableEq

/-- Modelled from the spec: a staged temporary file held in the reclaimable
staging area while a duplicate decision is pending (spec sections 4.2, 6). -/
structure StagedFile where
  ref : Nat
  owner : String
  bytes : List Nat
deriving DecidableEq

/-- Modelled from the spec: the Upload Store plus the staging area. -/
structure Store where
  uploads : List Upload
  staged : List StagedFile
  nextId : Nat
  nextRef : Nat
deriving DecidableEq

/-- An empty store, used to instantiate witnesses. -/
def emptyStore : Store :=
  { uploads := [], staged := [], nextId := 0, nextRef := 0 }

/-- Modelled from the spec (section 4.1): `fingerprint(bytes) -> hash`, a
pure deterministic content hash.  It is modelled as the byte sequence
itself, which is deterministic and collision-free; none of the claims
depends on the hash being shorter than its input. -/
def fingerprint (bytes : List Nat) : List Nat := bytes

/-- Modelled from the spec (section 4.2): scan the store for a non-forced
upload of the same owner with the same fingerprint. -/
def find_duplicate (st : Store) (owner : String) (fp : List Nat) : Option Upload :=
  st.uploads.find? (fun u => u.owner = owner && u.contentFingerprint = fp && !u.forced)

/-- Response of the upload submission entry point (spec section 6): either a
created Upload identity, or a duplicate-decision payload carrying the
existing upload's summary and the staging reference to discard. -/
inductive SubmitResponse
  | created (uploadId : Nat)
  | duplicateOf (existingId : Nat) (existingFilename : String)
      (existingStatus : String) (tempRef : Nat)
deriving DecidableEq

/-- Modelled from the spec (section 3): the Upload record created for a
fresh (or forced) submission, in initial status UPLOADED and carrying the
`forced` mark. -/
def newUpload (st : Store) (owner : String) (f : FileMeta) (tipo : DocType)
    (forced : Bool) : Upload :=
  { id := st.nextId, owner := owner, docType := tipo,
    originalFilename := f.name, sizeBytes := f.size,
    mimeType := f.mimeType, contentFingerprint := fingerprint f.bytes,
    status := "UPLOADED", forced := forced }

/-- Modelled from the spec (sections 4.2 and 6): the upload submission entry
point.  Fingerprint the bytes; if a non-forced duplicate of the same owner
exists and the caller did not force, create no record, stage the bytes and
return the duplicate payload; otherwise create the record in status
UPLOADED, carrying the `forced` mark. -/
def submitUpload (st : Store) (owner : String) (f : FileMeta) (tipo : DocType)
    (forced : Bool) : Store × SubmitResponse :=
  match find_duplicate st owner (fingerprint f.bytes) with
  | some u =>
    if forced then
      ({ st with uploads := st.uploads ++ [newUpload st owner f tipo true],
                 nextId := st.nextId + 1 },
       .created st.nextId)
    else
      ({ st with staged := st.staged ++ [⟨st.nextRef, owner, f.bytes⟩],
                 nextRef := st.nextRef + 1 },
       .duplicateOf u.id u.originalFilename u.status st.nextRef)
  | none =>
    ({ st with uploads := st.uploads ++ [newUpload st owner f tipo forced],
               nextId := st.nextId + 1 },
     .created st.nextId)

/-! ## Theorems -/

/-- C5 counterexample: the source's status space is not the claimed
eight-value enum.  The frontend `UploadStatus` union declares QUEUED (and
the page dispatches on it), which the claimed enum excludes, while the
claimed enum's DUPLICATED does not occur in the frontend union at all. -/
theorem status_enum_counterexample :
    "QUEUED" ∈ frontendUploadStatusValues ∧
    "QUEUED" ∉ claimedStatusEnum ∧
    retryProcessing "QUEUED" = RetryAction.invokeStartAI ∧
    continueButtonVisible "QUEUED" = true ∧
    "DUPLICATED" ∈ claimedStatusEnum ∧
    "DUPLICATED" ∉ frontendUploadStatusValues := by
  decide

/-- C5 amended: upload statuses range over the eleven-value frontend
`UploadStatus` union.  The claimed eight values are exactly the list the SQL
migration documents for the new pipeline; every one of them except
DUPLICATED is among the frontend values, and the frontend union additionally
admits the legacy values QUEUED, PROCESSING, PROCESSED and FAILED. -/
theorem status_enum_amended :
    claimedStatusEnum = sqlDocumentedStatusValues ∧
    (sqlDocumentedStatusValues.all
      (fun s => s == "DUPLICATED" || frontendUploadStatusValues.contains s)) = true ∧
    frontendUploadStatusValues.contains "QUEUED" = true ∧
    frontendUploadStatusValues.contains "PROCESSING" = true ∧
    frontendUploadStatusValues.contains "PROCESSED" = true ∧
    frontendUploadStatusValues.contains "FAILED" = true := by
  decide

/-- C1 (code bug): `retryProcessing` is not a no-op on AI_COMPLETED.  The
dispatch sends an AI_COMPLETED upload straight back into the Drive stage,
and that stage call changes the page state (and, through the backend, the
upload's status). -/
theorem retry_not_noop_on_ai_completed :
    retryProcessing "AI_COMPLETED" = RetryAction.invokeStartArchive ∧
    RetryAction.invokeStartArchive ≠ RetryAction.noOp ∧
    startDriveUpload (FetchOutcome.ok ⟨true, some "drive-url", none⟩) initialPageState
      ≠ initialPageState := by
  decide

/-- C8 (code bug): skipping archival is not permanent in the source.  Both
the retry heuristic and the history details modal send an AI_COMPLETED
upload back into the Drive stage. -/
theorem skipped_archive_resumed :
    retryProcessing "AI_COMPLETED" = RetryAction.invokeStartArchive ∧
    continueButtonVisible "AI_COMPLETED" = true ∧
    continueProcessStep "AI_COMPLETED" = some ProcessingStep.confirm_drive := by
  decide

/-- C2 counterexample: the retry dispatch of the source disagrees with the
claimed dispatch on QUEUED (the source re-runs the AI stage, the claim says
no-op) and on COMPLETED (the source POSTs the generic backend retry
endpoint, the claim says no-op returning the state unchanged). -/
theorem retry_dispatch_counterexample :
    retryProcessing "QUEUED" ≠ claimRetryDispatch "QUEUED" ∧
    retryProcessing "COMPLETED" ≠ claimRetryDispatch "COMPLETED" := by
  decide

/-- C2 amended: the dispatch of `retryProcessing` groups QUEUED with the
never-started statuses that re-run the AI stage, sends FAILED_DRIVE and
AI_COMPLETED to the Drive stage, and for every other status delegates to the
generic backend retry endpoint instead of performing a local no-op. -/
theorem retry_dispatch_amended (s : String) :
    retryProcessing s = amendedRetryDispatch s := by
  by_cases h1 : s = "FAILED_AI"
  · subst h1; decide
  by_cases h2 : s = "UPLOADED"
  · subst h2; decide
  by_cases h3 : s = "QUEUED"
  · subst h3; decide
  by_cases h4 : s = "FAILED_DRIVE"
  · subst h4; decide
  by_cases h5 : s = "AI_COMPLETED"
  · subst h5; decide
  simp [retryProcessing, amendedRetryDispatch, h1, h2, h3, h4, h5,
    List.contains_cons]

/-- C10: discarding a pending duplicate always clears the duplicate-pending
state (modal, duplicate info, pending file), and the resulting state does
not depend on whether the temp-file deletion succeeded or failed. -/
theorem duplicate_cancel_always_clears (hasToken : Bool) (r : DeleteOutcome)
    (st : PageState) :
    (handleDuplicateCancel hasToken r st).showDuplicateModal = false ∧
    (handleDuplicateCancel hasToken r st).duplicateInfo = none ∧
    (handleDuplicateCancel hasToken r st).pendingDuplicateFile = none ∧
    handleDuplicateCancel hasToken r st
      = handleDuplicateCancel hasToken DeleteOutcome.deleted st := by
  have h4 : handleDuplicateCancel hasToken r st
      = handleDuplicateCancel hasToken DeleteOutcome.deleted st := by
    cases r <;> rfl
  refine ⟨?_, ?_, ?_, h4⟩ <;> rw [h4] <;> unfold handleDuplicateCancel <;>
    (repeat' split) <;>
    simp [apply_ite PageState.showDuplicateModal, apply_ite PageState.duplicateInfo,
      apply_ite PageState.pendingDuplicateFile]

/-- A JavaScript `a || default` with a non-empty default is never empty. -/
theorem jsOr_ne_empty (o : Option String) (d : String) (hd : d ≠ "") :
    jsOr o d ≠ "" := by
  unfold jsOr
  cases o with
  | none => exact hd
  | some s =>
    by_cases hs : s = "" <;> simp [hs, hd]

/-- C6: collaborator failures never escape the stage functions.  A network
exception and a malformed-JSON exception with the same message produce the
very same next state, and every failed interaction (failure body, network
exception or malformed JSON) ends in the `error` step with a non-empty
human-readable message. -/
theorem collaborator_failures_contained (st : PageState) (m : String)
    (ra : FetchOutcome AIBody) (rd : FetchOutcome DriveBody)
    (ha : aiFailure ra = true) (hd : driveFailure rd = true) :
    startAIProcessing (FetchOutcome.netException m) st
      = startAIProcessing (FetchOutcome.malformedJson m) st ∧
    startDriveUpload (FetchOutcome.netException m) st
      = startDriveUpload (FetchOutcome.malformedJson m) st ∧
    (startAIProcessing ra st).processingStep = ProcessingStep.error ∧
    (∃ e, (startAIProcessing ra st).processingError = some e ∧ e ≠ "") ∧
    (startDriveUpload rd st).processingStep = ProcessingStep.error ∧
    (∃ e, (startDriveUpload rd st).processingError = some e ∧ e ≠ "") := by
  refine ⟨rfl, rfl, ?_, ?_, ?_, ?_⟩
  · cases ra with
    | ok body =>
      simp only [aiFailure, Bool.not_eq_true'] at ha
      simp [startAIProcessing, ha]
    | netException m' => simp [startAIProcessing]
    | malformedJson m' => simp [startAIProcessing]
  · cases ra with
    | ok body =>
      simp only [aiFailure, Bool.not_eq_true'] at ha
      refine ⟨jsOr body.error "Error en el procesamiento con IA", ?_,
        jsOr_ne_empty _ _ (by decide)⟩
      simp [startAIProcessing, ha]
    | netException m' =>
      refine ⟨jsOr (some m') "Error desconocido", ?_, jsOr_ne_empty _ _ (by decide)⟩
      simp [startAIProcessing]
    | malformedJson m' =>
      refine ⟨jsOr (some m') "Error desconocido", ?_, jsOr_ne_empty _ _ (by decide)⟩
      simp [startAIProcessing]
  · cases rd with
    | ok body =>
      simp only [driveFailure, Bool.not_eq_true'] at hd
      simp [startDriveUpload, hd]
    | netException m' => simp [startDriveUpload]
    | malformedJson m' => simp [startDriveUpload]
  · cases rd with
    | ok body =>
      simp only [driveFailure, Bool.not_eq_true'] at hd
      refine ⟨jsOr body.error "Error subiendo a Drive", ?_,
        jsOr_ne_empty _ _ (by decide)⟩
      simp [startDriveUpload, hd]
    | netException m' =>
      refine ⟨jsOr (some m') "Error desconocido", ?_, jsOr_ne_empty _ _ (by decide)⟩
      simp [startDriveUpload]
    | malformedJson m' =>
      refine ⟨jsOr (some m') "Error desconocido", ?_, jsOr_ne_empty _ _ (by decide)⟩
      simp [startDriveUpload]

/-- Witness for C6 at a concrete failed interaction. -/
theorem collaborator_failures_contained_witness :
    aiFailure (FetchOutcome.netException "sin red") = true ∧
    driveFailure (FetchOutcome.ok ⟨false, none, some "Drive rechazado"⟩) = true ∧
    (startAIProcessing (FetchOutcome.netException "timeout") initialPageState
      = startAIProcessing (FetchOutcome.malformedJson "timeout") initialPageState ∧
    startDriveUpload (FetchOutcome.netException "timeout") initialPageState
      = startDriveUpload (FetchOutcome.malformedJson "timeout") initialPageState ∧
    (startAIProcessing (FetchOutcome.netException "sin red") initialPageState).processingStep
      = ProcessingStep.error ∧
    (∃ e, (startAIProcessing (FetchOutcome.netException "sin red") initialPageState).processingError
      = some e ∧ e ≠ "") ∧
    (startDriveUpload (FetchOutcome.ok ⟨false, none, some "Drive rechazado"⟩) initialPageState).processingStep
      = ProcessingStep.error ∧
    (∃ e, (startDriveUpload (FetchOutcome.ok ⟨false, none, some "Drive rechazado"⟩) initialPageState).processingError
      = some e ∧ e ≠ "")) :=
  ⟨by decide, by decide,
   collaborator_failures_contained initialPageState "timeout"
     (FetchOutcome.netException "sin red")
     (FetchOutcome.ok ⟨false, none, some "Drive rechazado"⟩)
     (by decide) (by decide)⟩

/-- Anything in the folded dedup list came from the initial list or from the
incoming files. -/
theorem mem_foldl_dedupStep (l : List FileMeta) (acc : List FileMeta)
    (x : FileMeta) (h : x ∈ l.foldl dedupStep acc) : x ∈ acc ∨ x ∈ l := by
  induction l generalizing acc with
  | nil => exact Or.inl h
  | cons f t ih =>
    simp only [List.foldl_cons] at h
    rcases ih (dedupStep acc f) h with hacc | ht
    · unfold dedupStep at hacc
      split at hacc
      · exact Or.inl hacc
      · rcases List.mem_append.mp hacc with hl | hr
        · exact Or.inl hl
        · simp only [List.mem_singleton] at hr
          exact Or.inr (hr ▸ List.mem_cons_self f t)
    · exact Or.inr (List.mem_cons_of_mem f ht)

/-- The source's `isAllowed` gate coincides with the gate as the claim words
it. -/
theorem isAllowed_eq_claimTypeGate (f : FileMeta) :
    isAllowed f = claimTypeGate f := by
  have h1 : toLowerChars ".pdf" = ".pdf".data := by decide
  have h2 : toLowerChars ".xlsx" = ".xlsx".data := by decide
  unfold isAllowed claimTypeGate ALLOWED_TYPES
  rw [h1, h2]
  by_cases hm1 : f.mimeType = "application/pdf" <;>
    by_cases hm2 :
      f.mimeType = "application/vnd.openxmlformats-officedocument.spreadsheetml.sheet" <;>
    simp [hm1, hm2, List.contains_cons]

/-- C9: every file that `addFiles` lets into the pending upload list either
was already there or passes the type gate, both as the source computes it
and as the claim words it. -/
theorem pending_files_pass_type_gate (prev incoming : List FileMeta)
    (f : FileMeta) (h : f ∈ addFiles prev incoming) :
    f ∈ prev ∨ (isAllowed f = true ∧ claimTypeGate f = true) := by
  unfold addFiles at h
  rcases mem_foldl_dedupStep _ _ _ h with hp | hf
  · exact Or.inl hp
  · have hmem := List.mem_filter.mp hf
    exact Or.inr ⟨hmem.2, by rw [← isAllowed_eq_claimTypeGate]; exact hmem.2⟩

/-- A concrete file whose MIME type is generic but whose (mixed-case) name
ends in ".PDF", used to witness the type gate. -/
def samplePdfFile : FileMeta :=
  { name := "Factura_01.PDF", size := 4, mimeType := "application/octet-stream",
    bytes := [1, 2, 3, 4] }

/-- Witness for C9 at a concrete accepted file. -/
theorem pending_files_pass_type_gate_witness :
    samplePdfFile ∈ addFiles [] [samplePdfFile] ∧
    (samplePdfFile ∈ ([] : List FileMeta) ∨
      (isAllowed samplePdfFile = true ∧ claimTypeGate samplePdfFile = true)) :=
  ⟨by decide, pending_files_pass_type_gate [] [samplePdfFile] samplePdfFile (by decide)⟩

/-- Unfolding of `submitUpload` when no duplicate exists. -/
theorem submitUpload_of_no_dup (st : Store) (owner : String) (f : FileMeta)
    (tipo : DocType) (forced : Bool)
    (h : find_duplicate st owner (fingerprint f.bytes) = none) :
    submitUpload st owner f tipo forced
      = ({ st with uploads := st.uploads ++ [newUpload st owner f tipo forced],
                   nextId := st.nextId + 1 },
         SubmitResponse.created st.nextId) := by
  unfold submitUpload
  rw [h]

/-- Unfolding of `submitUpload` for a non-forced submission that hits a
duplicate. -/
theorem submitUpload_of_dup (st : Store) (owner : String) (f : FileMeta)
    (tipo : DocType) (u : Upload)
    (h : find_duplicate st owner (fingerprint f.bytes) = some u) :
    submitUpload st owner f tipo false
      = ({ st with staged := st.staged ++ [⟨st.nextRef, owner, f.bytes⟩],
                   nextRef := st.nextRef + 1 },
         SubmitResponse.duplicateOf u.id u.originalFilename u.status st.nextRef) := by
  unfold submitUpload
  rw [h]
  simp

/-- Unfolding of `submitUpload` for a forced submission that hits a
duplicate. -/
theorem submitUpload_of_dup_forced (st : Store) (owner : String) (f : FileMeta)
    (tipo : DocType) (u : Upload)
    (h : find_duplicate st owner (fingerprint f.bytes) = some u) :
    submitUpload st owner f tipo true
      = ({ st with uploads := st.uploads ++ [newUpload st owner f tipo true],
                   nextId := st.nextId + 1 },
         SubmitResponse.created st.nextId) := by
  unfold submitUpload
  rw [h]
  simp

/-- After a fresh submission, the duplicate lookup for the same bytes finds
exactly the record that submission created. -/
theorem find_duplicate_after_create (st : Store) (owner : String)
    (f g : FileMeta) (tipo : DocType) (hg : g.bytes = f.bytes)
    (h : find_duplicate st owner (fingerprint f.bytes) = none) :
    find_duplicate (submitUpload st owner f tipo false).1 owner
      (fingerprint g.bytes) = some (newUpload st owner f tipo false) := by
  have hfpg : fingerprint g.bytes = fingerprint f.bytes := by
    simp [fingerprint, hg]
  rw [submitUpload_of_no_dup st owner f tipo false h]
  unfold find_duplicate at h ⊢
  simp only [hfpg]
  rw [List.find?_append, h]
  simp [newUpload]

/-- C3: duplicate detection at the submission entry point.  Starting from a
store with no duplicate of `f` for this owner, the first submission creates
a record; re-submitting the same bytes without forcing creates no second
record, answers with the existing upload's summary and stages the bytes for
an explicit decision; re-submitting with `forced = true` creates a second
record, and both records carry the same content fingerprint. -/
theorem duplicate_submission_semantics (st : Store) (owner : String)
    (f g : FileMeta) (tipo tipo2 : DocType) (hg : g.bytes = f.bytes)
    (h : find_duplicate st owner (fingerprint f.bytes) = none) :
    (submitUpload st owner f tipo false).2 = SubmitResponse.created st.nextId ∧
    (submitUpload (submitUpload st owner f tipo false).1 owner g tipo2 false).1.uploads
      = (submitUpload st owner f tipo false).1.uploads ∧
    (submitUpload (submitUpload st owner f tipo false).1 owner g tipo2 false).2
      = SubmitResponse.duplicateOf st.nextId f.name "UPLOADED"
          (submitUpload st owner f tipo false).1.nextRef ∧
    (submitUpload (submitUpload st owner f tipo false).1 owner g tipo2 false).1.staged
      = (submitUpload st owner f tipo false).1.staged
          ++ [⟨(submitUpload st owner f tipo false).1.nextRef, owner, g.bytes⟩] ∧
    (∃ u2,
      (submitUpload (submitUpload st owner f tipo false).1 owner g tipo2 true).1.uploads
        = (submitUpload st owner f tipo false).1.uploads ++ [u2] ∧
      u2.contentFingerprint = fingerprint f.bytes ∧
      ∃ u1, u1 ∈ (submitUpload st owner f tipo false).1.uploads ∧
        u1.id = st.nextId ∧ u1.contentFingerprint = fingerprint f.bytes) := by
  have hdup := find_duplicate_after_create st owner f g tipo hg h
  have hfpg : fingerprint g.bytes = fingerprint f.bytes := by
    simp [fingerprint, hg]
  have e2 := submitUpload_of_dup (submitUpload st owner f tipo false).1 owner g
    tipo2 (newUpload st owner f tipo false) hdup
  have e2f := submitUpload_of_dup_forced (submitUpload st owner f tipo false).1
    owner g tipo2 (newUpload st owner f tipo false) hdup
  refine ⟨?_, ?_, ?_, ?_, ?_⟩
  · rw [submitUpload_of_no_dup st owner f tipo false h]
  · rw [e2]
  · rw [e2]
    simp [newUpload]
  · rw [e2]
  · refine ⟨newUpload (submitUpload st owner f tipo false).1 owner g tipo2 true,
      ?_, ?_, newUpload st owner f tipo false, ?_, ?_, ?_⟩
    · rw [e2f]
    · simp [newUpload, hfpg]
    · rw [submitUpload_of_no_dup st owner f tipo false h]
      simp
    · simp [newUpload]
    · simp [newUpload]

/-- Witness for C3 on an empty store and a concrete file. -/
theorem duplicate_submission_semantics_witness :
    find_duplicate emptyStore "ana" (fingerprint samplePdfFile.bytes) = none ∧
    ((submitUpload emptyStore "ana" samplePdfFile DocType.factura false).2
      = SubmitResponse.created emptyStore.nextId ∧
    (submitUpload (submitUpload emptyStore "ana" samplePdfFile DocType.factura false).1
        "ana" samplePdfFile DocType.factura false).1.uploads
      = (submitUpload emptyStore "ana" samplePdfFile DocType.factura false).1.uploads ∧
    (submitUpload (submitUpload emptyStore "ana" samplePdfFile DocType.factura false).1
        "ana" samplePdfFile DocType.factura false).2
      = SubmitResponse.duplicateOf emptyStore.nextId samplePdfFile.name "UPLOADED"
          (submitUpload emptyStore "ana" samplePdfFile DocType.factura false).1.nextRef ∧
    (submitUpload (submitUpload emptyStore "ana" samplePdfFile DocType.factura false).1
        "ana" samplePdfFile DocType.factura false).1.staged
      = (submitUpload emptyStore "ana" samplePdfFile DocType.factura false).1.staged
          ++ [⟨(submitUpload emptyStore "ana" samplePdfFile DocType.factura false).1.nextRef,
               "ana", samplePdfFile.bytes⟩] ∧
    (∃ u2,
      (submitUpload (submitUpload emptyStore "ana" samplePdfFile DocType.factura false).1
          "ana" samplePdfFile DocType.factura true).1.uploads
        = (submitUpload emptyStore "ana" samplePdfFile DocType.factura false).1.uploads ++ [u2] ∧
      u2.contentFingerprint = fingerprint samplePdfFile.bytes ∧
      ∃ u1, u1 ∈ (submitUpload emptyStore "ana" samplePdfFile DocType.factura false).1.uploads ∧
        u1.id = emptyStore.nextId ∧ u1.contentFingerprint = fingerprint samplePdfFile.bytes)) :=
  ⟨by decide,
   duplicate_submission_semantics emptyStore "ana" samplePdfFile samplePdfFile
     DocType.factura DocType.factura rfl (by decide)⟩

/-- Whether an upload request outcome is the 409 duplicate_hash case. -/
def isDupOutcome : UploadOutcome → Bool
  | .dupHash _ => true
  | _ => false

/-- No `uploadStarted` event in the trace concerns a file beyond position
`k`. -/
def noLaterStart (k : Nat) (tr : List BatchEvent) : Bool :=
  tr.all fun e =>
    match e with
    | .uploadStarted j => decide (j ≤ k)
    | _ => true

/-- One-step unfolding of the upload loop at a duplicate outcome. -/
theorem confirmUploadGo_cons_dup (docType : DocType) (g : FileMeta)
    (info : DuplicateInfo) (rest : List (FileMeta × UploadOutcome)) (i : Nat)
    (acc : List (FileMeta × String)) (st : PageState) :
    confirmUploadGo docType ((g, UploadOutcome.dupHash info) :: rest) i acc st
      = ({ st with duplicateInfo := some info, pendingDuplicateFile := some g,
                   showDuplicateModal := true, showConfirm := false,
                   uploading := false, files := rest.map Prod.fst },
         [BatchEvent.uploadStarted i, BatchEvent.pausedAtDuplicate i]) := rfl

/-- One-step unfolding of the upload loop at a failed request. -/
theorem confirmUploadGo_cons_httpError (docType : DocType) (g : FileMeta)
    (m : String) (rest : List (FileMeta × UploadOutcome)) (i : Nat)
    (acc : List (FileMeta × String)) (st : PageState) :
    confirmUploadGo docType ((g, UploadOutcome.httpError m) :: rest) i acc st
      = ((confirmUploadGo docType rest (i + 1) acc st).1,
         BatchEvent.uploadStarted i :: BatchEvent.uploadSettled i ::
           (confirmUploadGo docType rest (i + 1) acc st).2) := rfl

/-- One-step unfolding of the upload loop at a successful request. -/
theorem confirmUploadGo_cons_ok (docType : DocType) (g : FileMeta)
    (uploadId? : Option String) (rest : List (FileMeta × UploadOutcome))
    (i : Nat) (acc : List (FileMeta × String)) (st : PageState) :
    confirmUploadGo docType ((g, UploadOutcome.ok uploadId?) :: rest) i acc st
      = ((confirmUploadGo docType rest (i + 1)
            (match docType, uploadId? with
             | DocType.factura, some uid => acc ++ [(g, uid)]
             | _, _ => acc)
            { st with historicoReloads := st.historicoReloads + 1 }).1,
         BatchEvent.uploadStarted i :: BatchEvent.uploadSettled i ::
           (confirmUploadGo docType rest (i + 1)
            (match docType, uploadId? with
             | DocType.factura, some uid => acc ++ [(g, uid)]
             | _, _ => acc)
            { st with historicoReloads := st.historicoReloads + 1 }).2) := rfl

/-- A trace whose started positions are bounded by `k` is also bounded by
any larger `k'`. -/
theorem noLaterStart_mono (k j : Nat) (hk : k ≤ j) (tr : List BatchEvent)
    (h : noLaterStart k tr = true) : noLaterStart j tr = true := by
  unfold noLaterStart at h ⊢
  rw [List.all_eq_true] at h ⊢
  intro e he
  have := h e he
  cases e with
  | uploadStarted n =>
    simp only [decide_eq_true_eq] at this ⊢
    omega
  | uploadSettled n => rfl
  | pausedAtDuplicate n => rfl


/-- Generalized pause lemma for the upload loop: if every outcome before the
duplicate position is not a duplicate, the loop stops at the duplicate with
its payload surfaced, the remaining files kept, the step flow untouched, and
no upload started beyond that position. -/
theorem confirmUploadGo_pause (docType : DocType) (f : FileMeta)
    (info : DuplicateInfo) (after : List (FileMeta × UploadOutcome))
    (before : List (FileMeta × UploadOutcome)) :
    ∀ (i : Nat) (acc : List (FileMeta × String)) (st : PageState),
      (∀ x ∈ before, isDupOutcome x.2 = false) →
      (confirmUploadGo docType
          (before ++ (f, UploadOutcome.dupHash info) :: after) i acc st).1.duplicateInfo
        = some info ∧
      (confirmUploadGo docType
          (before ++ (f, UploadOutcome.dupHash info) :: after) i acc st).1.pendingDuplicateFile
        = some f ∧
      (confirmUploadGo docType
          (before ++ (f, UploadOutcome.dupHash info) :: after) i acc st).1.showDuplicateModal
        = true ∧
      (confirmUploadGo docType
          (before ++ (f, UploadOutcome.dupHash info) :: after) i acc st).1.files
        = after.map Prod.fst ∧
      (confirmUploadGo docType
          (before ++ (f, UploadOutcome.dupHash info) :: after) i acc st).1.processingStep
        = st.processingStep ∧
      (confirmUploadGo docType
          (before ++ (f, UploadOutcome.dupHash info) :: after) i acc st).1.pendingFiles
        = st.pendingFiles ∧
      noLaterStart (i + before.length)
        (confirmUploadGo docType
          (before ++ (f, UploadOutcome.dupHash info) :: after) i acc st).2 = true := by
  induction before with
  | nil =>
    intro i acc st _
    simp [confirmUploadGo, noLaterStart]
  | cons hd t ih =>
    intro i acc st hnd
    obtain ⟨g, o⟩ := hd
    have ho : isDupOutcome o = false := hnd (g, o) (List.mem_cons_self _ _)
    have ht : ∀ x ∈ t, isDupOutcome x.2 = false :=
      fun x hx => hnd x (List.mem_cons_of_mem _ hx)
    cases o with
    | dupHash info' => simp [isDupOutcome] at ho
    | httpError m =>
      obtain ⟨h1, h2, h3, h4, h5, h6, h7⟩ := ih (i + 1) acc st ht
      rw [List.cons_append, confirmUploadGo_cons_httpError]
      refine ⟨h1, h2, h3, h4, h5, h6, ?_⟩
      have hb : i + ((g, UploadOutcome.httpError m) :: t).length = i + 1 + t.length := by
        simp only [List.length_cons]
        omega
      rw [hb]
      simp only [noLaterStart, List.all_cons, Bool.and_eq_true]
      refine ⟨by simp only [decide_eq_true_eq]; omega, trivial, ?_⟩
      simpa [noLaterStart] using h7
    | ok uid? =>
      rw [List.cons_append, confirmUploadGo_cons_ok]
      have hb : i + ((g, UploadOutcome.ok uid?) :: t).length = i + 1 + t.length := by
        simp only [List.length_cons]
        omega
      cases docType with
      | factura =>
        cases uid? with
        | some uid =>
          obtain ⟨h1, h2, h3, h4, h5, h6, h7⟩ := ih (i + 1) (acc ++ [(g, uid)])
            { st with historicoReloads := st.historicoReloads + 1 } ht
          refine ⟨h1, h2, h3, h4, h5, h6, ?_⟩
          rw [hb]
          simp only [noLaterStart, List.all_cons, Bool.and_eq_true]
          refine ⟨by simp only [decide_eq_true_eq]; omega, trivial, ?_⟩
          simpa [noLaterStart] using h7
        | none =>
          obtain ⟨h1, h2, h3, h4, h5, h6, h7⟩ := ih (i + 1) acc
            { st with historicoReloads := st.historicoReloads + 1 } ht
          refine ⟨h1, h2, h3, h4, h5, h6, ?_⟩
          rw [hb]
          simp only [noLaterStart, List.all_cons, Bool.and_eq_true]
          refine ⟨by simp only [decide_eq_true_eq]; omega, trivial, ?_⟩
          simpa [noLaterStart] using h7
      | venta =>
        cases uid? with
        | some uid =>
          obtain ⟨h1, h2, h3, h4, h5, h6, h7⟩ := ih (i + 1) acc
            { st with historicoReloads := st.historicoReloads + 1 } ht
          refine ⟨h1, h2, h3, h4, h5, h6, ?_⟩
          rw [hb]
          simp only [noLaterStart, List.all_cons, Bool.and_eq_true]
          refine ⟨by simp only [decide_eq_true_eq]; omega, trivial, ?_⟩
          simpa [noLaterStart] using h7
        | none =>
          obtain ⟨h1, h2, h3, h4, h5, h6, h7⟩ := ih (i + 1) acc
            { st with historicoReloads := st.historicoReloads + 1 } ht
          refine ⟨h1, h2, h3, h4, h5, h6, ?_⟩
          rw [hb]
          simp only [noLaterStart, List.all_cons, Bool.and_eq_true]
          refine ⟨by simp only [decide_eq_true_eq]; omega, trivial, ?_⟩
          simpa [noLaterStart] using h7

/-- C4: when file `i` of a batch is a non-forced duplicate (and no earlier
file was), `confirmUpload` pauses the whole batch there: the duplicate
payload and pending file are surfaced in the modal, the remaining files are
kept in the list for later resumption, the step-by-step flow is not
started, and no upload beyond position `i` ever starts. -/
theorem batch_pauses_at_duplicate (docType : DocType) (st : PageState)
    (before after : List (FileMeta × UploadOutcome)) (f : FileMeta)
    (info : DuplicateInfo)
    (hb : ∀ x ∈ before, isDupOutcome x.2 = false) :
    (confirmUpload docType (before ++ (f, UploadOutcome.dupHash info) :: after) st).1.duplicateInfo
      = some info ∧
    (confirmUpload docType (before ++ (f, UploadOutcome.dupHash info) :: after) st).1.pendingDuplicateFile
      = some f ∧
    (confirmUpload docType (before ++ (f, UploadOutcome.dupHash info) :: after) st).1.showDuplicateModal
      = true ∧
    (confirmUpload docType (before ++ (f, UploadOutcome.dupHash info) :: after) st).1.files
      = after.map Prod.fst ∧
    (confirmUpload docType (before ++ (f, UploadOutcome.dupHash info) :: after) st).1.processingStep
      = st.processingStep ∧
    (confirmUpload docType (before ++ (f, UploadOutcome.dupHash info) :: after) st).1.pendingFiles
      = st.pendingFiles ∧
    noLaterStart before.length
      (confirmUpload docType (before ++ (f, UploadOutcome.dupHash info) :: after) st).2 = true := by
  have h := confirmUploadGo_pause docType f info after before 0 []
    { st with uploading := true } hb
  simpa [confirmUpload] using h

/-- Duplicate payload used to instantiate witnesses. -/
def sampleDupInfo : DuplicateInfo :=
  { existing := { id := "u-0", filename := "Factura_01.PDF",
                  uploaded_at := "2024-01-01", status := "COMPLETED" },
    factura := none, temp_file := "tmp-1" }

/-- A concrete xlsx file used to instantiate witnesses. -/
def sampleXlsxFile : FileMeta :=
  { name := "ventas.xlsx", size := 10,
    mimeType := "application/vnd.openxmlformats-officedocument.spreadsheetml.sheet",
    bytes := [9, 9] }

/-- Witness for C4: a three-file batch whose second file is a duplicate. -/
theorem batch_pauses_at_duplicate_witness :
    ([(sampleXlsxFile, UploadOutcome.ok (some "u1"))].all
      (fun x => !isDupOutcome x.2)) = true ∧
    ((confirmUpload DocType.factura
        ([(sampleXlsxFile, UploadOutcome.ok (some "u1"))]
          ++ (samplePdfFile, UploadOutcome.dupHash sampleDupInfo)
            :: [(sampleXlsxFile, UploadOutcome.ok (some "u3"))])
        initialPageState).1.duplicateInfo = some sampleDupInfo ∧
    (confirmUpload DocType.factura
        ([(sampleXlsxFile, UploadOutcome.ok (some "u1"))]
          ++ (samplePdfFile, UploadOutcome.dupHash sampleDupInfo)
            :: [(sampleXlsxFile, UploadOutcome.ok (some "u3"))])
        initialPageState).1.pendingDuplicateFile = some samplePdfFile ∧
    (confirmUpload DocType.factura
        ([(sampleXlsxFile, UploadOutcome.ok (some "u1"))]
          ++ (samplePdfFile, UploadOutcome.dupHash sampleDupInfo)
            :: [(sampleXlsxFile, UploadOutcome.ok (some "u3"))])
        initialPageState).1.showDuplicateModal = true ∧
    (confirmUpload DocType.factura
        ([(sampleXlsxFile, UploadOutcome.ok (some "u1"))]
          ++ (samplePdfFile, UploadOutcome.dupHash sampleDupInfo)
            :: [(sampleXlsxFile, UploadOutcome.ok (some "u3"))])
        initialPageState).1.files
      = [(sampleXlsxFile, UploadOutcome.ok (some "u3"))].map Prod.fst ∧
    (confirmUpload DocType.factura
        ([(sampleXlsxFile, UploadOutcome.ok (some "u1"))]
          ++ (samplePdfFile, UploadOutcome.dupHash sampleDupInfo)
            :: [(sampleXlsxFile, UploadOutcome.ok (some "u3"))])
        initialPageState).1.processingStep = initialPageState.processingStep ∧
    (confirmUpload DocType.factura
        ([(sampleXlsxFile, UploadOutcome.ok (some "u1"))]
          ++ (samplePdfFile, UploadOutcome.dupHash sampleDupInfo)
            :: [(sampleXlsxFile, UploadOutcome.ok (some "u3"))])
        initialPageState).1.pendingFiles = initialPageState.pendingFiles ∧
    noLaterStart [(sampleXlsxFile, UploadOutcome.ok (some "u1"))].length
      (confirmUpload DocType.factura
        ([(sampleXlsxFile, UploadOutcome.ok (some "u1"))]
          ++ (samplePdfFile, UploadOutcome.dupHash sampleDupInfo)
            :: [(sampleXlsxFile, UploadOutcome.ok (some "u3"))])
        initialPageState).2 = true) :=
  ⟨by decide,
   batch_pauses_at_duplicate DocType.factura initialPageState
     [(sampleXlsxFile, UploadOutcome.ok (some "u1"))]
     [(sampleXlsxFile, UploadOutcome.ok (some "u3"))]
     samplePdfFile sampleDupInfo (by decide)⟩

/-- Generalized sequencing lemma for the upload loop: if the upload of the
file at position `n + 1` started, then the file at position `n` settled
first, strictly earlier in the trace. -/
theorem confirmUploadGo_seq (docType : DocType)
    (items : List (FileMeta × UploadOutcome)) :
    ∀ (i : Nat) (acc : List (FileMeta × String)) (st : PageState) (n : Nat),
      i ≤ n →
      BatchEvent.uploadStarted (n + 1) ∈ (confirmUploadGo docType items i acc st).2 →
      ∃ l1 l2, (confirmUploadGo docType items i acc st).2
          = l1 ++ BatchEvent.uploadSettled n :: l2 ∧
        BatchEvent.uploadStarted (n + 1) ∈ l2 := by
  induction items with
  | nil =>
    intro i acc st n hin h
    simp [confirmUploadGo] at h
  | cons hd t ih =>
    intro i acc st n hin h
    obtain ⟨g, o⟩ := hd
    cases o with
    | dupHash info =>
      rw [confirmUploadGo_cons_dup] at h
      simp at h
      omega
    | httpError m =>
      rw [confirmUploadGo_cons_httpError] at h ⊢
      simp only [List.mem_cons] at h
      rcases h with h | h | h
      · simp at h
        omega
      · simp at h
      · by_cases hi : i = n
        · subst hi
          exact ⟨[BatchEvent.uploadStarted i],
            (confirmUploadGo docType t (i + 1) acc st).2, rfl, h⟩
        · obtain ⟨l1, l2, heq, hmem⟩ := ih (i + 1) acc st n (by omega) h
          refine ⟨BatchEvent.uploadStarted i :: BatchEvent.uploadSettled i :: l1,
            l2, ?_, hmem⟩
          simp [heq]
    | ok uid? =>
      rw [confirmUploadGo_cons_ok] at h ⊢
      simp only [List.mem_cons] at h
      rcases h with h | h | h
      · simp at h
        omega
      · simp at h
      · by_cases hi : i = n
        · subst hi
          exact ⟨[BatchEvent.uploadStarted i], _, rfl, h⟩
        · obtain ⟨l1, l2, heq, hmem⟩ := ih (i + 1) _ _ n (by omega) h
          refine ⟨BatchEvent.uploadStarted i :: BatchEvent.uploadSettled i :: l1,
            l2, ?_, hmem⟩
          simp [heq]

/-- C7 amended: the batch upload loop is strictly sequential at the level of
upload requests.  Whenever the trace of `confirmUpload` contains the start of
file `n + 1`, the settling of file `n`'s upload request occurs strictly
before it in the trace; in particular a file paused at a duplicate emits no
settle event, so no later file's upload ever begins.  This is weaker than
the original claim: file `n` has only had its upload request settle — for
invoice batches its AI→Archive step-through is deferred until after the
whole loop, so it has not reached a terminal or paused state. -/
theorem batch_strictly_sequential (docType : DocType)
    (items : List (FileMeta × UploadOutcome)) (st : PageState) (n : Nat)
    (h : BatchEvent.uploadStarted (n + 1) ∈ (confirmUpload docType items st).2) :
    ∃ l1 l2, (confirmUpload docType items st).2
        = l1 ++ BatchEvent.uploadSettled n :: l2 ∧
      BatchEvent.uploadStarted (n + 1) ∈ l2 := by
  unfold confirmUpload at h ⊢
  exact confirmUploadGo_seq docType items 0 [] _ n (Nat.zero_le n) h

/-- Witness for C7 on a concrete two-file batch. -/
theorem batch_strictly_sequential_witness :
    BatchEvent.uploadStarted 1 ∈
      (confirmUpload DocType.venta
        [(samplePdfFile, UploadOutcome.ok none), (sampleXlsxFile, UploadOutcome.ok none)]
        initialPageState).2 ∧
    (∃ l1 l2,
      (confirmUpload DocType.venta
        [(samplePdfFile, UploadOutcome.ok none), (sampleXlsxFile, UploadOutcome.ok none)]
        initialPageState).2
          = l1 ++ BatchEvent.uploadSettled 0 :: l2 ∧
      BatchEvent.uploadStarted 1 ∈ l2) :=
  ⟨by decide,
   batch_strictly_sequential DocType.venta
     [(samplePdfFile, UploadOutcome.ok none), (sampleXlsxFile, UploadOutcome.ok none)]
     initialPageState 0 (by decide)⟩

/-- The terminal statuses of the spec's glossary: COMPLETED, or AI_COMPLETED
when archival was skipped.  Spec-side definition, used to compare the
sequencing claim with what the loop actually guarantees. -/
def claimTerminalStatuses : List String :=
  ["COMPLETED", "AI_COMPLETED"]

/-- C7 counterexample: an invoice batch of two files both of whose uploads
succeed.  File 1's upload starts right after file 0's upload request
settles, yet file 0 has reached no terminal or paused state at that point:
it never paused at a duplicate, its freshly created record holds status
UPLOADED — not a terminal status — and the AI→Drive step-through is only
positioned at file 0 (step `confirm_ai`, extraction not yet begun) after
the whole loop, hence after file 1's upload has already settled. -/
theorem batch_sequencing_counterexample :
    (confirmUpload DocType.factura
        [(samplePdfFile, UploadOutcome.ok (some "u1")),
         (sampleXlsxFile, UploadOutcome.ok (some "u2"))] initialPageState).2
      = [BatchEvent.uploadStarted 0, BatchEvent.uploadSettled 0,
         BatchEvent.uploadStarted 1, BatchEvent.uploadSettled 1] ∧
    BatchEvent.pausedAtDuplicate 0 ∉
      (confirmUpload DocType.factura
        [(samplePdfFile, UploadOutcome.ok (some "u1")),
         (sampleXlsxFile, UploadOutcome.ok (some "u2"))] initialPageState).2 ∧
    (confirmUpload DocType.factura
        [(samplePdfFile, UploadOutcome.ok (some "u1")),
         (sampleXlsxFile, UploadOutcome.ok (some "u2"))] initialPageState).1.processingStep
      = ProcessingStep.confirm_ai ∧
    (confirmUpload DocType.factura
        [(samplePdfFile, UploadOutcome.ok (some "u1")),
         (sampleXlsxFile, UploadOutcome.ok (some "u2"))] initialPageState).1.currentFileIndex
      = 0 ∧
    (confirmUpload DocType.factura
        [(samplePdfFile, UploadOutcome.ok (some "u1")),
         (sampleXlsxFile, UploadOutcome.ok (some "u2"))] initialPageState).1.currentUploadId
      = some "u1" ∧
    (newUpload emptyStore "ana" samplePdfFile DocType.factura false).status
      = "UPLOADED" ∧
    "UPLOADED" ∉ claimTerminalStatuses := by
  decide
